import Mathlib

/-!
Shallow embedding of the Express local-library catalog CRUD logic: the
Genre, Author and Book controllers and the Author model virtuals.
Stores are lists of documents; the Mongo operations used by the
controllers (findById, findOne, find-with-filter, findByIdAndDelete,
findByIdAndUpdate, save) become list operations; a POST/GET handler is a
function from the library state and the request fields to the new state
and the emitted response actions.  Handlers that may emit more than one
response action (the delete handlers, whose null-target branch issues a
redirect without returning) produce a list of responses in emission
order; the others produce a single response.
-/

/-- Whitespace trim from both ends, the trim sanitizer of the validation
chains (validator.js trim with its default whitespace character list),
given here over the character list so that it evaluates by reduction. -/
def strTrim (s : String) : String :=
  ⟨((s.data.dropWhile Char.isWhitespace).reverse.dropWhile Char.isWhitespace).reverse⟩

/-- Lower-casing used to model the case-insensitive Mongo collation
(strength 2) of the genre create duplicate query. -/
def strLower (s : String) : String :=
  ⟨s.data.map Char.toLower⟩

/-- Character-level HTML escaper modelling the escape sanitizer of the
express-validator dependency (validator.js escape), which successively
replaces ampersand, double quote, apostrophe, less-than, greater-than,
slash, backslash and backtick by their HTML entities.  The ampersand is
replaced first and no replacement output contains one of the
later-replaced characters, so the successive global replacements are
equivalent to this single character-wise map. -/
def escapeChar (c : Char) : String :=
  if c = '&' then "&amp;"
  else if c = '"' then "&quot;"
  else if c = '\x27' then "&#x27;"
  else if c = '<' then "&lt;"
  else if c = '>' then "&gt;"
  else if c = '/' then "&#x2F;"
  else if c = '\x5c' then "&#x5C;"
  else if c = '\x60' then "&#96;"
  else c.toString

/-- HTML-escape a whole string, character by character. -/
def htmlEscape (s : String) : String :=
  ⟨(s.data.map (fun c => (escapeChar c).data)).flatten⟩

/-- The sanitizer pipeline trim-then-escape shared by every text field
validation chain in the controllers. -/
def sanitizeText (raw : String) : String :=
  htmlEscape (strTrim raw)

/-- A Genre document: name (3-100 chars per the spec data model). -/
structure Genre where
  id : String
  name : String
deriving DecidableEq

/-- An Author document.  The two date fields are optional; JS truthiness
treats an absent and an empty name field alike, so a missing name is
modelled by the empty string. -/
structure Author where
  id : String
  first_name : String
  family_name : String
  date_of_birth : Option String
  date_of_death : Option String
deriving DecidableEq

/-- A Book document: a single author reference and a list of genre
references, all identities being id strings. -/
structure Book where
  id : String
  title : String
  author : String
  summary : String
  isbn : String
  genre : List String
deriving DecidableEq

/-- The entity store: one list of documents per collection. -/
structure Library where
  genres : List Genre
  authors : List Author
  books : List Book
deriving DecidableEq

/-- Modelled from the spec: canonical URLs are /catalog/(entity)/(id).
The genre model file is not among the sources; its url virtual follows
the author model pattern. -/
def genreUrl (id : String) : String := "/catalog/genre/" ++ id

/-- The author url virtual from the Author model. -/
def authorUrl (id : String) : String := "/catalog/author/" ++ id

/-- Modelled from the spec: the book model url virtual. -/
def bookUrl (id : String) : String := "/catalog/book/" ++ id

/-- The author full-name virtual: empty unless both name fields are
truthy (non-empty), in which case it is family_name, first_name. -/
def Author.fullName (a : Author) : String :=
  if a.first_name != "" && a.family_name != "" then
    a.family_name ++ ", " ++ a.first_name
  else ""

/-- A response action emitted by a handler: a redirect, a rendered view
(with the view-model fields the claims are about), or a thrown error. -/
inductive Response where
  | redirect (url : String)
  | renderGenreForm (title : String) (genre : Option Genre) (errors : List String)
  | renderGenreDelete (title : String) (genre : Option Genre) (genre_books : List Book)
  | renderAuthorForm (title : String) (author : Option Author) (errors : List String)
  | renderAuthorDelete (title : String) (author : Option Author) (author_books : List Book)
  | renderBookForm (title : String) (book : Option Book) (errors : List String)
  | error (msg : String)
deriving DecidableEq

/-- Genre.findById: first document with the given id (ids are
store-assigned and unique). -/
def findGenreById (l : List Genre) (id : String) : Option Genre :=
  l.find? (fun g => g.id == id)

/-- Author.findById. -/
def findAuthorById (l : List Author) (id : String) : Option Author :=
  l.find? (fun a => a.id == id)

/-- Book.findById. -/
def findBookById (l : List Book) (id : String) : Option Book :=
  l.find? (fun b => b.id == id)

/-- Book.find with filter on the genre reference list. -/
def booksWithGenre (l : List Book) (id : String) : List Book :=
  l.filter (fun b => b.genre.contains id)

/-- Book.find with filter on the author reference. -/
def booksByAuthor (l : List Book) (id : String) : List Book :=
  l.filter (fun b => b.author == id)

/-- Errors of the genre name validation chain: trim, then isLength with
min 3 (the chain states no maximum), then escape. -/
def genreNameErrors (raw : String) : List String :=
  if 3 ≤ (strTrim raw).length then [] else ["Genre name must contain at least 3 characters"]

/-- Modelled from the spec: the Genre model file is absent from src and
the spec data model declares name required with 3 to 100 characters,
following the author model's maxLength pattern; mongoose evaluates
these schema validators against the stored document value on save. -/
def genreSchemaValid (g : Genre) : Bool :=
  3 ≤ g.name.length && g.name.length ≤ 100

/-- Handler genre_create_post: validate/sanitize the name, re-render the
form on errors, otherwise check for a case-insensitively equal existing
name (Mongo collation strength 2, modelled by toLower equality) and
either redirect to the existing document or save the new one; the save
runs the Genre schema validation and throws a ValidationError instead
of persisting when it fails.  The id a saved document receives from the
store is the freshId parameter. -/
def genre_create_post (lib : Library) (rawName : String) (freshId : String) :
    Library × Response :=
  let name := sanitizeText rawName
  let errors := genreNameErrors rawName
  let genre : Genre := { id := freshId, name := name }
  if !errors.isEmpty then
    (lib, .renderGenreForm "Create Genre" (some genre) errors)
  else
    match lib.genres.find? (fun g => strLower g.name == strLower name) with
    | some genreExists => (lib, .redirect (genreUrl genreExists.id))
    | none =>
      if genreSchemaValid genre then
        ({ lib with genres := lib.genres ++ [genre] }, .redirect (genreUrl genre.id))
      else
        (lib, .error "ValidationError")

/-- Handler genre_delete_get: fetch the genre and its books; when the
genre is null a redirect is issued, but the handler does not return and
still renders the delete view afterwards. -/
def genre_delete_get (lib : Library) (paramsId : String) : Library × List Response :=
  let genre := findGenreById lib.genres paramsId
  let allBooksInGenre := booksWithGenre lib.books paramsId
  (lib,
    (if genre.isNone then [Response.redirect "/catalog/genres"] else []) ++
      [.renderGenreDelete "Delete Genre" genre allBooksInGenre])

/-- Handler genre_delete_post: when books reference the path id, render
the blocked delete view; otherwise delete the document whose id is the
genreid field of the form body and redirect to the listing. -/
def genre_delete_post (lib : Library) (paramsId bodyGenreid : String) :
    Library × List Response :=
  let genre := findGenreById lib.genres paramsId
  let allBooksInGenre := booksWithGenre lib.books paramsId
  if allBooksInGenre.length > 0 then
    (lib, [.renderGenreDelete "Delete Genre" genre allBooksInGenre])
  else
    ({ lib with genres := lib.genres.filter (fun g => g.id != bodyGenreid) },
      [.redirect "/catalog/genres"])

/-- Handler genre_update_post: validate/sanitize, re-render on errors;
otherwise findOne an existing document with exactly the submitted name
(no collation, and the target itself is not excluded) and redirect to
it, or else replace the document at the path id (which keeps its id) and
redirect to the pre-update document returned by findByIdAndUpdate; when
that returns null the handler throws reading its url. -/
def genre_update_post (lib : Library) (paramsId : String) (rawName : String) :
    Library × Response :=
  let name := sanitizeText rawName
  let errors := genreNameErrors rawName
  let genre : Genre := { id := paramsId, name := name }
  if !errors.isEmpty then
    (lib, .renderGenreForm "Update Genre" (some genre) errors)
  else
    match lib.genres.find? (fun g => g.name == name) with
    | some genreExists => (lib, .redirect (genreUrl genreExists.id))
    | none =>
      let newGenres := lib.genres.map (fun g => if g.id = paramsId then genre else g)
      match findGenreById lib.genres paramsId with
      | some updatedGenre =>
        ({ lib with genres := newGenres }, .redirect (genreUrl updatedGenre.id))
      | none =>
        ({ lib with genres := newGenres }, .error "TypeError: cannot read url of null")

/-- True when the string is non-empty and all characters are ASCII
letters or digits, modelling validator.js isAlphanumeric (en-US). -/
def isAlphanumericStr (s : String) : Bool :=
  s.length > 0 && s.data.all Char.isAlphanum

/-- Errors of an author name chain: trim, isLength min 1 (message one),
escape, isAlphanumeric on the escaped value (message two). -/
def authorNameErrors (raw : String) (requiredMsg nonAlphaMsg : String) : List String :=
  (if 1 ≤ (strTrim raw).length then [] else [requiredMsg]) ++
    (if isAlphanumericStr (sanitizeText raw) then [] else [nonAlphaMsg])

/-- Split a character list on a separator character. -/
def splitOnChar (sep : Char) : List Char → List (List Char)
  | [] => [[]]
  | x :: xs =>
    match splitOnChar sep xs, decide (x = sep) with
    | r, true => [] :: r
    | [], false => [[x]]
    | y :: ys, false => (x :: y) :: ys

/-- Numeric value of a digit list. -/
def digitsToNat (l : List Char) : Nat :=
  l.foldl (fun n c => n * 10 + (c.toNat - 48)) 0

/-- Modelled from the spec: date fields must be ISO-8601 when present.
The isISO8601 check is external validator code, modelled as accepting
calendar dates in YYYY-MM-DD form. -/
def isISO8601Date (s : String) : Bool :=
  match splitOnChar '-' s.data with
  | [y, m, d] =>
    y.length = 4 && m.length = 2 && d.length = 2 &&
      y.all Char.isDigit && m.all Char.isDigit && d.all Char.isDigit &&
      1 ≤ digitsToNat m && digitsToNat m ≤ 12 &&
      1 ≤ digitsToNat d && digitsToNat d ≤ 31
  | _ => false

/-- Errors of a date chain: optional with falsy values, so absence and
the empty string are valid and skip the check. -/
def dateFieldErrors (d : Option String) (msg : String) : List String :=
  match d with
  | none => []
  | some s => if s = "" then [] else if isISO8601Date s then [] else [msg]

/-- Sanitized date value: falsy submissions yield no value. -/
def sanitizeDate (d : Option String) : Option String :=
  match d with
  | none => none
  | some s => if s = "" then none else some s

/-- Save-time schema validation of the Author model: both name fields
are required (a non-empty string) of at most 100 characters; the date
fields carry no validators.  Mongoose runs this on save and throws a
ValidationError instead of persisting when it fails. -/
def authorSchemaValid (a : Author) : Bool :=
  a.first_name.length > 0 && a.first_name.length ≤ 100 &&
    a.family_name.length > 0 && a.family_name.length ≤ 100

/-- Handler author_create_post: validate/sanitize the four fields in
chain order, collect all errors, re-render the form on errors,
otherwise save the author, which runs the Author schema validation and
throws instead of persisting when it fails, and redirect to its url. -/
def author_create_post (lib : Library) (firstName familyName : String)
    (dob dod : Option String) (freshId : String) : Library × Response :=
  let errors :=
    authorNameErrors firstName "First name must be specified."
        "First name has non-alphanumeric characters." ++
      authorNameErrors familyName "Family name must be specified."
        "Family has non-alphanumeric characters" ++
      dateFieldErrors dob "Invalid date of birth" ++
      dateFieldErrors dod "Invalid date of death"
  let author : Author :=
    { id := freshId
      first_name := sanitizeText firstName
      family_name := sanitizeText familyName
      date_of_birth := sanitizeDate dob
      date_of_death := sanitizeDate dod }
  if !errors.isEmpty then
    (lib, .renderAuthorForm "Create Author" (some author) errors)
  else
    if authorSchemaValid author then
      ({ lib with authors := lib.authors ++ [author] }, .redirect (authorUrl author.id))
    else
      (lib, .error "ValidationError")

/-- Handler author_delete_get: like genre_delete_get, the null-target
branch issues a redirect but does not return, so the delete view is
still rendered afterwards. -/
def author_delete_get (lib : Library) (paramsId : String) : Library × List Response :=
  let author := findAuthorById lib.authors paramsId
  let allBooksByAuthor := booksByAuthor lib.books paramsId
  (lib,
    (if author.isNone then [Response.redirect "/catalog/authors"] else []) ++
      [.renderAuthorDelete "Delete Author" author allBooksByAuthor])

/-- Handler author_delete_post: when books reference the path id, render
the blocked delete view; otherwise delete the document whose id is the
authorid field of the form body and redirect to the listing. -/
def author_delete_post (lib : Library) (paramsId bodyAuthorid : String) :
    Library × List Response :=
  let author := findAuthorById lib.authors paramsId
  let allBooksByAuthor := booksByAuthor lib.books paramsId
  if allBooksByAuthor.length > 0 then
    (lib, [.renderAuthorDelete "Delete Author" author allBooksByAuthor])
  else
    ({ lib with authors := lib.authors.filter (fun a => a.id != bodyAuthorid) },
      [.redirect "/catalog/authors"])

/-- The shape of the raw genre form field before the array-normalization
middleware: absent, a single value, or already an array. -/
inductive GenreField where
  | absent
  | single (value : String)
  | multi (values : List String)
deriving DecidableEq

/-- The array-normalization middleware shared by book_create_post and
book_update_post: a non-array req.body.genre becomes the empty array
when undefined and a singleton array otherwise; arrays pass unchanged. -/
def normalizeGenre : GenreField → List String
  | .absent => []
  | .single v => [v]
  | .multi vs => vs

/-- Errors of a required text field chain: trim, isLength min 1, escape. -/
def requiredFieldErrors (raw : String) (msg : String) : List String :=
  if 1 ≤ (strTrim raw).length then [] else [msg]

/-- The four required book fields validated in chain order; the isbn
message differs between the create and update chains and is passed in. -/
def bookFieldErrors (title bauthor summary isbn : String) (isbnMsg : String) :
    List String :=
  requiredFieldErrors title "Title must not be empty." ++
    requiredFieldErrors bauthor "Author must not be empty." ++
    requiredFieldErrors summary "Summary must not be empty." ++
    requiredFieldErrors isbn isbnMsg

/-- Handler book_create_post: normalize the genre field, validate the
text fields and escape each genre element, re-render on errors (the
view-model reference lists and checked flags are display-only and not
modelled), otherwise save the book and redirect to its url. -/
def book_create_post (lib : Library) (title bauthor summary isbn : String)
    (genreField : GenreField) (freshId : String) : Library × Response :=
  let genreList := (normalizeGenre genreField).map htmlEscape
  let errors := bookFieldErrors title bauthor summary isbn "ISBN must not be empty"
  let book : Book :=
    { id := freshId
      title := sanitizeText title
      author := sanitizeText bauthor
      summary := sanitizeText summary
      isbn := sanitizeText isbn
      genre := genreList }
  if !errors.isEmpty then
    (lib, .renderBookForm "Create Book" (some book) errors)
  else
    ({ lib with books := lib.books ++ [book] }, .redirect (bookUrl book.id))

/-- Handler book_update_post: like the create handler but the candidate
carries the path id (the handler comment notes this is required or a new
id would be assigned), and the success branch replaces the document at
the path id, redirecting to the pre-update document returned by
findByIdAndUpdate; a null return makes the handler throw reading url.
After the middleware the genre field is never undefined, so the
undefined-guard on construction reduces to the normalized list. -/
def book_update_post (lib : Library) (paramsId : String)
    (title bauthor summary isbn : String) (genreField : GenreField) :
    Library × Response :=
  let genreList := (normalizeGenre genreField).map htmlEscape
  let errors := bookFieldErrors title bauthor summary isbn "ISBN must not be empty."
  let book : Book :=
    { id := paramsId
      title := sanitizeText title
      author := sanitizeText bauthor
      summary := sanitizeText summary
      isbn := sanitizeText isbn
      genre := genreList }
  if !errors.isEmpty then
    (lib, .renderBookForm "Update Book" (some book) errors)
  else
    let newBooks := lib.books.map (fun b => if b.id = paramsId then book else b)
    match findBookById lib.books paramsId with
    | some updatedBook =>
      ({ lib with books := newBooks }, .redirect (bookUrl updatedBook.id))
    | none =>
      ({ lib with books := newBooks }, .error "TypeError: cannot read url of null")

/-- Every character escapes to at least one character. -/
theorem escapeChar_length_pos (c : Char) : 1 ≤ (escapeChar c).length := by
  unfold escapeChar
  repeat' split
  all_goals first
    | decide
    | rfl

/-- Flattened character-wise escaping never shortens a character list. -/
theorem flatten_map_escape_length_ge (l : List Char) :
    l.length ≤ ((l.map (fun c => (escapeChar c).data)).flatten).length := by
  induction l with
  | nil => simp
  | cons c t ih =>
    simp only [List.map_cons, List.flatten_cons, List.length_append, List.length_cons]
    have h1 := escapeChar_length_pos c
    have h2 : (escapeChar c).length = (escapeChar c).data.length := rfl
    omega

/-- Escaping never shortens a string: the stored escaped form is at
least as long as the trimmed submission. -/
theorem htmlEscape_length_ge (s : String) : s.length ≤ (htmlEscape s).length :=
  flatten_map_escape_length_ge s.data

/-- C6: for every Author record, the full-name virtual equals the family
name followed by a comma and a space and the first name when both name
fields are non-empty, and equals the empty string when either is missing
or empty (a missing field is falsy exactly like the empty one and is
modelled by it). -/
theorem author_fullName_spec (a : Author) :
    (a.first_name ≠ "" → a.family_name ≠ "" →
      a.fullName = a.family_name ++ ", " ++ a.first_name) ∧
    ((a.first_name = "" ∨ a.family_name = "") → a.fullName = "") := by
  constructor
  · intro h1 h2
    simp [Author.fullName, h1, h2]
  · rintro (h | h) <;> simp [Author.fullName, h]

/-- Witness for C6 at concrete authors. -/
theorem author_fullName_spec_witness :
    Author.fullName ⟨"3", "Jane", "Doe", none, none⟩ = "Doe, Jane" ∧
    Author.fullName ⟨"4", "", "Doe", none, none⟩ = "" :=
  ⟨(author_fullName_spec ⟨"3", "Jane", "Doe", none, none⟩).1 (by decide) (by decide),
   (author_fullName_spec ⟨"4", "", "Doe", none, none⟩).2 (Or.inl rfl)⟩

/-- C5: the genre field of a book create or update submission is
normalized before validation: absent yields the empty list, a single
value the singleton list, an array passes through unchanged; and an
absent genre field is not a validation error, an otherwise valid create
submission with it saves a book with no genre references. -/
theorem book_genre_normalization_spec :
    normalizeGenre .absent = [] ∧
    (∀ v, normalizeGenre (.single v) = [v]) ∧
    (∀ vs, normalizeGenre (.multi vs) = vs) ∧
    (∀ lib title bauthor summary isbn freshId,
      1 ≤ (strTrim title).length → 1 ≤ (strTrim bauthor).length →
      1 ≤ (strTrim summary).length → 1 ≤ (strTrim isbn).length →
      book_create_post lib title bauthor summary isbn .absent freshId =
        ({ lib with books := lib.books ++
            [{ id := freshId, title := sanitizeText title, author := sanitizeText bauthor,
               summary := sanitizeText summary, isbn := sanitizeText isbn, genre := [] }] },
          .redirect (bookUrl freshId))) := by
  refine ⟨rfl, fun v => rfl, fun vs => rfl, ?_⟩
  intro lib title bauthor summary isbn freshId h1 h2 h3 h4
  simp [book_create_post, bookFieldErrors, requiredFieldErrors, normalizeGenre,
    h1, h2, h3, h4]

/-- Witness for C5 at a concrete valid create submission without genre. -/
theorem book_genre_normalization_spec_witness :
    book_create_post ⟨[], [], []⟩ "T1" "a9" "Sum" "123" .absent "4" =
      (⟨[], [], [⟨"4", "T1", "a9", "Sum", "123", []⟩]⟩, .redirect "/catalog/book/4") := by
  have h := book_genre_normalization_spec.2.2.2 ⟨[], [], []⟩ "T1" "a9" "Sum" "123" "4"
    (by decide) (by decide) (by decide) (by decide)
  exact h.trans (by decide)

/-- C7: the update handlers preserve the stored identifiers: the list of
ids of the updated collection is unchanged by genre_update_post and by
book_update_post on every input, the replacement candidate being built
with the original path id. -/
theorem update_preserves_ids (lib : Library)
    (paramsId rawName title bauthor summary isbn : String) (gf : GenreField) :
    (genre_update_post lib paramsId rawName).1.genres.map Genre.id =
      lib.genres.map Genre.id ∧
    (book_update_post lib paramsId title bauthor summary isbn gf).1.books.map Book.id =
      lib.books.map Book.id := by
  constructor
  · simp only [genre_update_post]
    split
    · rfl
    · split
      · rfl
      · split <;>
        · simp only [List.map_map]
          refine List.map_congr_left fun g _ => ?_
          by_cases h : g.id = paramsId <;> simp [h]
  · simp only [book_update_post]
    split
    · rfl
    · split <;>
      · simp only [List.map_map]
        refine List.map_congr_left fun b _ => ?_
        by_cases h : b.id = paramsId <;> simp [h]

/-- C4 evaluated at its failing input: a delete-path GET whose target id
has no record issues the redirect to the listing but then, lacking an
early return, also renders the delete view, a second response after the
redirect, where the claim prescribes the redirect alone.  Concretely:
empty store, genre id 5 and author id 9. -/
theorem delete_get_missing_target_double_response :
    genre_delete_get ⟨[], [], []⟩ "5" =
      (⟨[], [], []⟩, [.redirect "/catalog/genres",
        .renderGenreDelete "Delete Genre" none []]) ∧
    author_delete_get ⟨[], [], []⟩ "9" =
      (⟨[], [], []⟩, [.redirect "/catalog/authors",
        .renderAuthorDelete "Delete Author" none []]) := by decide

/-- C8 counterexample: a 101-character name, outside the claimed at most
100 range, passes the genre validation chain, which only enforces the
minimum of 3, so no validation error list is produced and no form is
re-rendered; the create handler instead reaches the save, whose schema
validation throws, leaving the store unchanged with a thrown error in
place of the claimed error-list re-render. -/
theorem genre_name_over_100_accepted :
    genreNameErrors (String.mk (List.replicate 101 'a')) = [] ∧
    genre_create_post ⟨[], [], []⟩ (String.mk (List.replicate 101 'a')) "9" =
      (⟨[], [], []⟩, .error "ValidationError") := by decide

/-- C8 amended: the trimmed name is accepted by the genre create and
update validation chains if and only if its length is at least 3, the
chains imposing no 100-character maximum; a shorter name yields a
non-empty error list and a re-rendered form with the store unchanged;
a name whose stored escaped form exceeds 100 characters still passes
the chains: the create path then fails the schema maximum at save with
a thrown validation error and no store mutation (not a re-rendered
form), while the update path, whose replace-by-id skips the schema
validators, applies the edit regardless of length. -/
theorem genre_name_validation_spec (lib : Library) (raw freshId paramsId : String) :
    (genreNameErrors raw = [] ↔ 3 ≤ (strTrim raw).length) ∧
    ((strTrim raw).length < 3 →
      genreNameErrors raw ≠ [] ∧
      genre_create_post lib raw freshId =
        (lib, .renderGenreForm "Create Genre"
          (some { id := freshId, name := sanitizeText raw }) (genreNameErrors raw)) ∧
      genre_update_post lib paramsId raw =
        (lib, .renderGenreForm "Update Genre"
          (some { id := paramsId, name := sanitizeText raw }) (genreNameErrors raw))) ∧
    (3 ≤ (strTrim raw).length → 100 < (sanitizeText raw).length →
      (∀ g ∈ lib.genres, strLower g.name ≠ strLower (sanitizeText raw)) →
      genre_create_post lib raw freshId = (lib, .error "ValidationError")) ∧
    (3 ≤ (strTrim raw).length →
      (∀ g ∈ lib.genres, g.name ≠ sanitizeText raw) →
      (∃ t ∈ lib.genres, t.id = paramsId) →
      (genre_update_post lib paramsId raw).1.genres =
        lib.genres.map (fun g => if g.id = paramsId then
          ({ id := paramsId, name := sanitizeText raw } : Genre) else g) ∧
      (genre_update_post lib paramsId raw).2 = .redirect (genreUrl paramsId)) := by
  refine ⟨?_, ?_, ?_, ?_⟩
  · unfold genreNameErrors
    split <;> simp_all
  · intro h
    have herr : genreNameErrors raw =
        ["Genre name must contain at least 3 characters"] := by
      unfold genreNameErrors
      split
      · omega
      · rfl
    refine ⟨by simp [herr], ?_, ?_⟩ <;>
      simp [genre_create_post, genre_update_post, herr]
  · intro hval hbig hnodup
    have herr2 : genreNameErrors raw = [] := by
      unfold genreNameErrors
      simp [hval]
    have hnone :
        lib.genres.find? (fun x => strLower x.name == strLower (sanitizeText raw)) = none := by
      rw [List.find?_eq_none]
      intro x hx
      simpa using hnodup x hx
    have hsch : genreSchemaValid { id := freshId, name := sanitizeText raw } = false := by
      simp [genreSchemaValid]
      omega
    simp [genre_create_post, herr2, hnone, hsch]
  · intro hval hnodup hmem
    have herr2 : genreNameErrors raw = [] := by
      unfold genreNameErrors
      simp [hval]
    have hfind : lib.genres.find? (fun x => x.name == sanitizeText raw) = none := by
      rw [List.find?_eq_none]
      intro x hx
      simpa using hnodup x hx
    obtain ⟨t, ht, htid⟩ := hmem
    have hsome2 : (findGenreById lib.genres paramsId).isSome := by
      unfold findGenreById
      rw [List.find?_isSome]
      exact ⟨t, ht, by simp [htid]⟩
    obtain ⟨u, hu⟩ := Option.isSome_iff_exists.mp hsome2
    have huid : u.id = paramsId := by
      unfold findGenreById at hu
      simpa using List.find?_some hu
    refine ⟨?_, ?_⟩
    · simp [genre_update_post, herr2, hfind, hu]
    · simp [genre_update_post, herr2, hfind, hu, huid]

set_option maxRecDepth 8192 in
/-- Witness for C8-amended: a too-short name re-renders the create form
with the error list, and an over-long name is applied by the update
path, which skips the schema validators. -/
theorem genre_name_validation_spec_witness :
    genre_create_post ⟨[], [], []⟩ "ab" "9" =
      (⟨[], [], []⟩, .renderGenreForm "Create Genre" (some ⟨"9", "ab"⟩)
        ["Genre name must contain at least 3 characters"]) ∧
    (genre_update_post ⟨[⟨"1", "Fantasy"⟩], [], []⟩ "1"
        (String.mk (List.replicate 101 'a'))).1.genres =
      [⟨"1", String.mk (List.replicate 101 'a')⟩] := by
  constructor
  · have h := ((genre_name_validation_spec ⟨[], [], []⟩ "ab" "9" "1").2.1 (by decide)).2.1
    exact h.trans (by decide)
  · have h := ((genre_name_validation_spec ⟨[⟨"1", "Fantasy"⟩], [], []⟩
      (String.mk (List.replicate 101 'a')) "9" "1").2.2.2 (by decide)
      (by decide) ⟨⟨"1", "Fantasy"⟩, by decide, rfl⟩).1
    exact h.trans (by decide)

/-- C1: a genre or author delete POST whose path id is referenced by at
least one book leaves the store unchanged and responds with the blocked
delete view listing exactly the referencing books; with zero referencing
books, and the form body naming the same id as the path as the delete
form does, the records with that id are removed and the response is the
single redirect to the entity listing. -/
theorem delete_post_referential_integrity (lib : Library) (pid bid : String) :
    (booksWithGenre lib.books pid ≠ [] →
      genre_delete_post lib pid bid =
        (lib, [.renderGenreDelete "Delete Genre" (findGenreById lib.genres pid)
          (booksWithGenre lib.books pid)])) ∧
    (booksWithGenre lib.books pid = [] → bid = pid →
      (genre_delete_post lib pid bid).1.genres =
        lib.genres.filter (fun g => g.id != pid) ∧
      (genre_delete_post lib pid bid).1.authors = lib.authors ∧
      (genre_delete_post lib pid bid).1.books = lib.books ∧
      (genre_delete_post lib pid bid).2 = [.redirect "/catalog/genres"]) ∧
    (booksByAuthor lib.books pid ≠ [] →
      author_delete_post lib pid bid =
        (lib, [.renderAuthorDelete "Delete Author" (findAuthorById lib.authors pid)
          (booksByAuthor lib.books pid)])) ∧
    (booksByAuthor lib.books pid = [] → bid = pid →
      (author_delete_post lib pid bid).1.authors =
        lib.authors.filter (fun a => a.id != pid) ∧
      (author_delete_post lib pid bid).1.genres = lib.genres ∧
      (author_delete_post lib pid bid).1.books = lib.books ∧
      (author_delete_post lib pid bid).2 = [.redirect "/catalog/authors"]) := by
  refine ⟨?_, ?_, ?_, ?_⟩
  · intro h
    have hl : 0 < (booksWithGenre lib.books pid).length := List.length_pos.mpr h
    simp [genre_delete_post, hl]
  · intro h hbid
    subst hbid
    simp [genre_delete_post, h]
  · intro h
    have hl : 0 < (booksByAuthor lib.books pid).length := List.length_pos.mpr h
    simp [author_delete_post, hl]
  · intro h hbid
    subst hbid
    simp [author_delete_post, h]

/-- Witness for C1: a blocked genre delete with one referencing book,
and an unblocked one that removes the record. -/
theorem delete_post_referential_integrity_witness :
    genre_delete_post ⟨[⟨"1", "Fantasy"⟩], [], [⟨"2", "T", "a1", "S", "I", ["1"]⟩]⟩ "1" "1" =
      (⟨[⟨"1", "Fantasy"⟩], [], [⟨"2", "T", "a1", "S", "I", ["1"]⟩]⟩,
        [.renderGenreDelete "Delete Genre" (some ⟨"1", "Fantasy"⟩)
          [⟨"2", "T", "a1", "S", "I", ["1"]⟩]]) ∧
    (genre_delete_post ⟨[⟨"1", "Fantasy"⟩], [], []⟩ "1" "1").1.genres = [] := by
  constructor
  · have h := (delete_post_referential_integrity
      ⟨[⟨"1", "Fantasy"⟩], [], [⟨"2", "T", "a1", "S", "I", ["1"]⟩]⟩ "1" "1").1 (by decide)
    exact h.trans (by decide)
  · have h := ((delete_post_referential_integrity
      ⟨[⟨"1", "Fantasy"⟩], [], []⟩ "1" "1").2.1 (by decide) rfl).1
    exact h.trans (by decide)

/-- C9: the delete POST dependent-books check uses the path id while the
deletion uses the form-body id; when the two differ and no book
references the path id, the record whose references were checked
survives and the records removed are those carrying the body id. -/
theorem delete_post_body_id_mismatch (lib : Library) (pid bid : String) :
    (booksWithGenre lib.books pid = [] → pid ≠ bid →
      (genre_delete_post lib pid bid).1.genres =
        lib.genres.filter (fun g => g.id != bid) ∧
      (∀ g ∈ lib.genres, g.id = pid → g ∈ (genre_delete_post lib pid bid).1.genres) ∧
      (∀ g ∈ lib.genres, g.id = bid → g ∉ (genre_delete_post lib pid bid).1.genres)) ∧
    (booksByAuthor lib.books pid = [] → pid ≠ bid →
      (author_delete_post lib pid bid).1.authors =
        lib.authors.filter (fun a => a.id != bid) ∧
      (∀ a ∈ lib.authors, a.id = pid → a ∈ (author_delete_post lib pid bid).1.authors) ∧
      (∀ a ∈ lib.authors, a.id = bid → a ∉ (author_delete_post lib pid bid).1.authors)) := by
  constructor
  · intro h hne
    refine ⟨by simp [genre_delete_post, h], ?_, ?_⟩
    · intro g hg hgid
      simp only [genre_delete_post, h]
      simp [List.mem_filter, hg, hgid, hne]
    · intro g hg hgid
      simp only [genre_delete_post, h]
      simp [List.mem_filter, hgid]
  · intro h hne
    refine ⟨by simp [author_delete_post, h], ?_, ?_⟩
    · intro a ha haid
      simp only [author_delete_post, h]
      simp [List.mem_filter, ha, haid, hne]
    · intro a ha haid
      simp only [author_delete_post, h]
      simp [List.mem_filter, haid]

/-- Witness for C9: path id 1 is checked, body id 2 is deleted. -/
theorem delete_post_body_id_mismatch_witness :
    (genre_delete_post ⟨[⟨"1", "A1"⟩, ⟨"2", "B2"⟩], [], []⟩ "1" "2").1.genres =
      [⟨"1", "A1"⟩] := by
  have h := ((delete_post_body_id_mismatch
    ⟨[⟨"1", "A1"⟩, ⟨"2", "B2"⟩], [], []⟩ "1" "2").1 (by decide) (by decide)).1
  exact h.trans (by decide)

set_option maxRecDepth 8192 in
/-- C2 counterexample: a name of 40 ampersands is 40 characters after
trimming, inside the claimed valid range, and case-insensitively new in
the empty store, yet the create handler persists nothing and does not
redirect: the escaped stored form (200 characters) fails the Genre
schema's 100-character maximum and the save throws. -/
theorem genre_create_trim_valid_name_rejected_at_save :
    (strTrim (String.mk (List.replicate 40 '&'))).length = 40 ∧
    genre_create_post ⟨[], [], []⟩ (String.mk (List.replicate 40 '&')) "9" =
      (⟨[], [], []⟩, .error "ValidationError") := by decide

/-- C2 amended: a genre create POST whose trimmed name has at least 3
characters and whose stored escaped form stays within the schema's
100-character maximum (the bound the save actually enforces, which
subsumes the claimed 100 characters after trim since escaping never
shortens) redirects to an existing case-insensitive name match without
inserting any document, and with no such match inserts exactly one new
document and redirects to its detail url. -/
theorem genre_create_duplicate_check (lib : Library) (raw freshId : String)
    (hval : 3 ≤ (strTrim raw).length)
    (hmax : (sanitizeText raw).length ≤ 100) :
    ((∃ g ∈ lib.genres, strLower g.name = strLower (sanitizeText raw)) →
      (genre_create_post lib raw freshId).1 = lib ∧
      ∃ g ∈ lib.genres, strLower g.name = strLower (sanitizeText raw) ∧
        (genre_create_post lib raw freshId).2 = .redirect (genreUrl g.id)) ∧
    ((∀ g ∈ lib.genres, strLower g.name ≠ strLower (sanitizeText raw)) →
      (genre_create_post lib raw freshId).1.genres =
        lib.genres ++ [{ id := freshId, name := sanitizeText raw }] ∧
      (genre_create_post lib raw freshId).1.genres.length = lib.genres.length + 1 ∧
      (genre_create_post lib raw freshId).2 = .redirect (genreUrl freshId)) := by
  have herr : genreNameErrors raw = [] := by
    unfold genreNameErrors
    simp [hval]
  constructor
  · rintro ⟨g, hg, hname⟩
    have hsome :
        (lib.genres.find? (fun x => strLower x.name == strLower (sanitizeText raw))).isSome := by
      rw [List.find?_isSome]
      exact ⟨g, hg, by simp [hname]⟩
    obtain ⟨f, hf⟩ := Option.isSome_iff_exists.mp hsome
    have hfname : strLower f.name = strLower (sanitizeText raw) := by
      simpa using List.find?_some hf
    have hfm := List.mem_of_find?_eq_some hf
    refine ⟨by simp [genre_create_post, herr, hf], f, hfm, hfname, ?_⟩
    simp [genre_create_post, herr, hf]
  · intro hall
    have hnone :
        lib.genres.find? (fun x => strLower x.name == strLower (sanitizeText raw)) = none := by
      rw [List.find?_eq_none]
      intro x hx
      simpa using hall x hx
    have hval2 : 3 ≤ (sanitizeText raw).length :=
      le_trans hval (htmlEscape_length_ge (strTrim raw))
    have hsch : genreSchemaValid { id := freshId, name := sanitizeText raw } = true := by
      simp [genreSchemaValid, hval2, hmax]
    refine ⟨?_, ?_, ?_⟩ <;> simp [genre_create_post, herr, hnone, hsch]

/-- Witness for C2: a case variant of an existing name redirects without
inserting; a fresh name inserts exactly one document. -/
theorem genre_create_duplicate_check_witness :
    (genre_create_post ⟨[⟨"1", "Fantasy"⟩], [], []⟩ "fantasy" "7").1 =
      ⟨[⟨"1", "Fantasy"⟩], [], []⟩ ∧
    (genre_create_post ⟨[], [], []⟩ "SciFi" "7").1.genres.length = 1 := by
  constructor
  · exact ((genre_create_duplicate_check ⟨[⟨"1", "Fantasy"⟩], [], []⟩ "fantasy" "7"
      (by decide) (by decide)).1 ⟨⟨"1", "Fantasy"⟩, by decide, by decide⟩).1
  · have h := ((genre_create_duplicate_check ⟨[], [], []⟩ "SciFi" "7" (by decide)
      (by decide)).2 (by intro g hg; cases hg)).2.1
    exact h.trans (by decide)

/-- C10: accepted text field values are stored HTML-escaped: the genre
create success path persists the escaped trimmed name, the author
create success path persists the escaped trimmed name fields, and the
escaper turns the special characters into HTML entities, so the stored
value may differ from the submitted one. -/
theorem stored_values_are_escaped (lib : Library) (raw first family freshId : String)
    (hval : 3 ≤ (strTrim raw).length)
    (hmax : (sanitizeText raw).length ≤ 100)
    (hnodup : ∀ g ∈ lib.genres, strLower g.name ≠ strLower (sanitizeText raw)) :
    (genre_create_post lib raw freshId).1.genres =
      lib.genres ++ [{ id := freshId, name := htmlEscape (strTrim raw) }] ∧
    (1 ≤ (strTrim first).length → isAlphanumericStr (sanitizeText first) = true →
      (sanitizeText first).length ≤ 100 →
      1 ≤ (strTrim family).length → isAlphanumericStr (sanitizeText family) = true →
      (sanitizeText family).length ≤ 100 →
      (author_create_post lib first family none none freshId).1.authors =
        lib.authors ++
          [{ id := freshId, first_name := htmlEscape (strTrim first),
             family_name := htmlEscape (strTrim family),
             date_of_birth := none, date_of_death := none }]) ∧
    htmlEscape "<" = "&lt;" ∧ htmlEscape ">" = "&gt;" ∧ htmlEscape "&" = "&amp;" ∧
    htmlEscape "\"" = "&quot;" ∧ htmlEscape "\x27" = "&#x27;" ∧
    htmlEscape "Sci<Fi>" = "Sci&lt;Fi&gt;" ∧ htmlEscape "Sci<Fi>" ≠ "Sci<Fi>" := by
  have herr : genreNameErrors raw = [] := by
    unfold genreNameErrors
    simp [hval]
  have hnone :
      lib.genres.find? (fun x => strLower x.name == strLower (sanitizeText raw)) = none := by
    rw [List.find?_eq_none]
    intro x hx
    simpa using hnodup x hx
  have hnone2 :
      lib.genres.find? (fun x => strLower x.name == strLower (htmlEscape (strTrim raw))) =
        none := by
    simpa [sanitizeText] using hnone
  have hval2 : 3 ≤ (htmlEscape (strTrim raw)).length :=
    le_trans hval (htmlEscape_length_ge (strTrim raw))
  have hmax2 : (htmlEscape (strTrim raw)).length ≤ 100 := hmax
  have hsch : genreSchemaValid { id := freshId, name := htmlEscape (strTrim raw) } = true := by
    simp [genreSchemaValid, hval2, hmax2]
  refine ⟨by simp [genre_create_post, herr, sanitizeText, hnone2, hsch], ?_,
    by decide, by decide, by decide, by decide, by decide, by decide, by decide⟩
  intro h1 h2 hm1 h3 h4 hm2
  simp only [sanitizeText] at h2 h4 hm1 hm2
  have hgef := htmlEscape_length_ge (strTrim first)
  have hgeg := htmlEscape_length_ge (strTrim family)
  have hA : authorSchemaValid
      { id := freshId, first_name := htmlEscape (strTrim first),
        family_name := htmlEscape (strTrim family),
        date_of_birth := none, date_of_death := none } = true := by
    simp only [authorSchemaValid, Bool.and_eq_true, decide_eq_true_eq]
    refine ⟨⟨⟨?_, ?_⟩, ?_⟩, ?_⟩ <;> omega
  simp [author_create_post, authorNameErrors, dateFieldErrors, sanitizeDate,
    sanitizeText, h1, h2, h3, h4, hA]

/-- Witness for C10 at a concrete submission containing an ampersand. -/
theorem stored_values_are_escaped_witness :
    (genre_create_post ⟨[], [], []⟩ "A&B x" "7").1.genres =
      [⟨"7", "A&amp;B x"⟩] := by
  have h := (stored_values_are_escaped ⟨[], [], []⟩ "A&B x" "Jane" "Doe" "7"
    (by decide) (by decide) (by intro g hg; cases hg)).1
  exact h.trans (by decide)

/-- C3: a genre update POST with a valid name checks for a duplicate
case-sensitively; over a store whose names and ids are duplicate-free
(the application-enforced uniqueness invariant) and which contains the
target: a distinct document with exactly the submitted name makes the
handler redirect to it without modifying the store, and otherwise the
document at the original id is replaced in place and the handler
redirects to its detail view. -/
theorem genre_update_duplicate_check (lib : Library) (pid raw : String)
    (hval : 3 ≤ (strTrim raw).length)
    (hnames : (lib.genres.map Genre.name).Nodup)
    (hids : (lib.genres.map Genre.id).Nodup)
    (hmem : ∃ t ∈ lib.genres, t.id = pid) :
    (∀ g ∈ lib.genres, g.name = sanitizeText raw → g.id ≠ pid →
      genre_update_post lib pid raw = (lib, .redirect (genreUrl g.id))) ∧
    ((∀ g ∈ lib.genres, g.name = sanitizeText raw → g.id = pid) →
      (genre_update_post lib pid raw).1.genres =
        lib.genres.map (fun g => if g.id = pid then
          ({ id := pid, name := sanitizeText raw } : Genre) else g) ∧
      (genre_update_post lib pid raw).2 = .redirect (genreUrl pid)) := by
  have herr : genreNameErrors raw = [] := by
    unfold genreNameErrors
    simp [hval]
  constructor
  · intro g hg hgname hgid
    have hsome : (lib.genres.find? (fun x => x.name == sanitizeText raw)).isSome := by
      rw [List.find?_isSome]
      exact ⟨g, hg, by simp [hgname]⟩
    obtain ⟨f, hf⟩ := Option.isSome_iff_exists.mp hsome
    have hfname : f.name = sanitizeText raw := by
      simpa using List.find?_some hf
    have hfm := List.mem_of_find?_eq_some hf
    have hfg : f = g :=
      List.inj_on_of_nodup_map hnames hfm hg (hfname.trans hgname.symm)
    subst hfg
    simp [genre_update_post, herr, hf]
  · intro hall
    cases hfind : lib.genres.find? (fun x => x.name == sanitizeText raw) with
    | some f =>
      have hfname : f.name = sanitizeText raw := by
        simpa using List.find?_some hfind
      have hfm := List.mem_of_find?_eq_some hfind
      have hfid : f.id = pid := hall f hfm hfname
      have hmap : lib.genres.map (fun g => if g.id = pid then
          ({ id := pid, name := sanitizeText raw } : Genre) else g) = lib.genres := by
        calc lib.genres.map (fun g => if g.id = pid then
              ({ id := pid, name := sanitizeText raw } : Genre) else g)
            = lib.genres.map (fun g => g) := by
              refine List.map_congr_left fun g hg => ?_
              by_cases h : g.id = pid
              · have hgf : g = f := List.inj_on_of_nodup_map hids hg hfm (h.trans hfid.symm)
                rw [if_pos h, hgf, ← hfid, ← hfname]
              · rw [if_neg h]
          _ = lib.genres := List.map_id _
      refine ⟨?_, ?_⟩
      · rw [hmap]
        simp [genre_update_post, herr, hfind]
      · rw [← hfid]
        simp [genre_update_post, herr, hfind]
    | none =>
      obtain ⟨t, ht, htid⟩ := hmem
      have hsome2 : (findGenreById lib.genres pid).isSome := by
        unfold findGenreById
        rw [List.find?_isSome]
        exact ⟨t, ht, by simp [htid]⟩
      obtain ⟨u, hu⟩ := Option.isSome_iff_exists.mp hsome2
      have huid : u.id = pid := by
        unfold findGenreById at hu
        simpa using List.find?_some hu
      refine ⟨?_, ?_⟩
      · simp [genre_update_post, herr, hfind, hu]
      · simp [genre_update_post, herr, hfind, hu, huid]

/-- Witness for C3: updating genre 1 to the name of the distinct genre 2
redirects to genre 2 without applying the edit, while updating it to a
fresh name replaces it in place. -/
theorem genre_update_duplicate_check_witness :
    genre_update_post ⟨[⟨"1", "Fantasy"⟩, ⟨"2", "Horror"⟩], [], []⟩ "1" "Horror" =
      (⟨[⟨"1", "Fantasy"⟩, ⟨"2", "Horror"⟩], [], []⟩, .redirect "/catalog/genre/2") ∧
    (genre_update_post ⟨[⟨"1", "Fantasy"⟩, ⟨"2", "Horror"⟩], [], []⟩ "1" "Drama").1.genres =
      [⟨"1", "Drama"⟩, ⟨"2", "Horror"⟩] := by
  constructor
  · have h := (genre_update_duplicate_check ⟨[⟨"1", "Fantasy"⟩, ⟨"2", "Horror"⟩], [], []⟩
      "1" "Horror" (by decide) (by decide) (by decide)
      ⟨⟨"1", "Fantasy"⟩, by decide, rfl⟩).1 ⟨"2", "Horror"⟩ (by decide) (by decide) (by decide)
    exact h.trans (by decide)
  · have h := ((genre_update_duplicate_check ⟨[⟨"1", "Fantasy"⟩, ⟨"2", "Horror"⟩], [], []⟩
      "1" "Drama" (by decide) (by decide) (by decide)
      ⟨⟨"1", "Fantasy"⟩, by decide, rfl⟩).2 (by decide)).1
    exact h.trans (by decide)
